import Mathlib

/-!
Verification of the ChatVat ingestion core: a shallow embedding of the
orchestration, deduplication, store-wrapper, scheduler, configuration-loading
and URL-safety logic of the repository, with theorems checking the
natural-language specification against it.

Source files embedded:
- chatvat/core/vector.py (VectorManager.upsert_documents, write lock)
- chatvat/bot_template/src/core/ingestor.py (IngestionEngine.run_pipeline)
- chatvat/bot_template/src/main.py (background_ingestion_loop)
- chatvat/bot_template/src/config_loader.py (load_runtime_config, _expand_env_vars)
- chatvat/bot_template/src/connectors/crawler.py (RuntimeCrawler)
-/

namespace ChatVat

/-- A LangChain Document as built by the ingestion pipeline: page content plus
provenance metadata (metadata keys "source" and "type" in the Python code). -/
structure Document where
  page_content : String
  source : String
  kindTag : String
deriving DecidableEq, Repr

/-- The document id computed in VectorManager.upsert_documents:
doc_id = str(hash(doc.page_content)).  Python's builtin hash on strings is a
fixed function within one process; it is passed in as the parameter pyHash. -/
def docId (pyHash : String → Int) (content : String) : String :=
  toString (pyHash content)

/-- One step of the unique_map construction in
chatvat/core/vector.py, upsert_documents: a Python dict keyed by doc_id,
inserting only when the id is not yet present (first occurrence wins);
a dict preserves insertion order, modelled as an association list that
appends new keys at the end. -/
def uniqueStep (pyHash : String → Int) (m : List (String × Document))
    (doc : Document) : List (String × Document) :=
  let k := docId pyHash doc.page_content
  if (List.lookup k m).isSome = true then m else m ++ [(k, doc)]

/-- The unique_map built by upsert_documents over the whole batch. -/
def uniqueMap (pyHash : String → Int) (docs : List Document) :
    List (String × Document) :=
  docs.foldl (uniqueStep pyHash) []

/-- clean_docs = list(unique_map.values()) in upsert_documents. -/
def cleanDocuments (pyHash : String → Int) (docs : List Document) :
    List Document :=
  (uniqueMap pyHash docs).map Prod.snd

/-- The deduplication contract as the specification words it: keep a unit iff
its fingerprint is not among the fingerprints of earlier units (first
occurrence of each fingerprint, in input order).  Stated separately from
cleanDocuments so the two can be compared. -/
def keepFirsts (pyHash : String → Int) (seen : List String) :
    List Document → List Document
  | [] => []
  | d :: rest =>
    let k := docId pyHash d.page_content
    if k ∈ seen then keepFirsts pyHash seen rest
    else d :: keepFirsts pyHash (k :: seen) rest

/-- Modelled from the spec: the external vector database (chromadb, not part
of src/) seen as a finite map from id to document; upsert is
insert-or-overwrite keyed by id. -/
abbrev Store := List (String × Document)

/-- Modelled from the spec: insert-or-overwrite of one keyed entry in the
external store. -/
def storePut (s : Store) (k : String) (d : Document) : Store :=
  if (List.lookup k s).isSome = true then
    s.map (fun p => if p.1 = k then (k, d) else p)
  else s ++ [(k, d)]

/-- Modelled from the spec: the store-side effect of one
vector_store.add_documents(documents, ids) call, entry by entry. -/
def storeUpsert (s : Store) (entries : List (String × Document)) : Store :=
  entries.foldl (fun acc e => storePut acc e.1 e.2) s

/-- An error raised by the external store during add_documents. -/
structure StoreError where
  msg : String
deriving DecidableEq, Repr

/-- The observable outcome of one VectorManager.upsert_documents call:
the store contents afterwards, what (if anything) propagates to the caller
as an exception, whether an error was logged, how many duplicates were
dropped (the logged warning count), and whether the external store was
invoked at all. -/
structure UpsertResult where
  store : Store
  raised : Option StoreError
  errorLogged : Bool
  duplicatesDropped : Nat
  storeCalled : Bool
deriving DecidableEq, Repr

/-- VectorManager.upsert_documents from chatvat/core/vector.py: early return
on an empty batch; otherwise build unique_map (first occurrence of each
doc_id), log the number of dropped duplicates, and call add_documents with
the deduplicated batch inside a try/except that logs and swallows any store
exception.  The parameter addOutcome is the behaviour of the external
add_documents call: none means it succeeds, some e means it raises e. -/
def upsertDocuments (pyHash : String → Int) (addOutcome : Option StoreError)
    (store : Store) (documents : List Document) : UpsertResult :=
  if documents.isEmpty then
    { store := store, raised := none, errorLogged := false,
      duplicatesDropped := 0, storeCalled := false }
  else
    let um := uniqueMap pyHash documents
    let cleanDocs := um.map Prod.snd
    let dropped := documents.length - cleanDocs.length
    if cleanDocs.isEmpty then
      { store := store, raised := none, errorLogged := false,
        duplicatesDropped := dropped, storeCalled := false }
    else
      match addOutcome with
      | none =>
        { store := storeUpsert store um, raised := none, errorLogged := false,
          duplicatesDropped := dropped, storeCalled := true }
      | some _ =>
        { store := store, raised := none, errorLogged := true,
          duplicatesDropped := dropped, storeCalled := true }

/-- The source kinds of the configuration schema (DataSource.type in
config_loader.py). -/
inductive SourceType
  | static_url
  | dynamic_json
  | local_file
deriving DecidableEq, Repr

/-- A configured source (DataSource in config_loader.py): kind, target URL or
path, and optional headers defaulting to empty. -/
structure DataSource where
  kind : SourceType
  target : String
  headers : List (String × String) := []
deriving DecidableEq, Repr

/-- The runtime configuration document (RuntimeConfig in
chatvat/bot_template/src/config_loader.py). -/
structure RuntimeConfig where
  bot_name : String
  sources : List DataSource
  system_prompt : Option String := none
  refresh_interval_minutes : Nat := 0
deriving DecidableEq, Repr

/-- An abstract Python exception value. -/
structure PyErr where
  msg : String
deriving DecidableEq, Repr

/-- IngestionEngine._process_static_url: call the crawler; a truthy markdown
result becomes one Document with url provenance, a falsy result becomes no
documents.  The crawler call itself is the parameter fetchStatic (it is
awaited Python code and may raise, hence the Except). -/
def processStaticUrl (fetchStatic : String → Except PyErr (Option String))
    (target : String) : Except PyErr (List Document) :=
  match fetchStatic target with
  | Except.error e => Except.error e
  | Except.ok (some markdown) =>
    Except.ok [{ page_content := markdown, source := target, kindTag := "url" }]
  | Except.ok none => Except.ok []

/-- IngestionEngine._process_dynamic_json: call the JSON loader with the
source headers; every returned text chunk becomes its own Document with
json provenance. -/
def processDynamicJson
    (fetchJson : String → List (String × String) → Except PyErr (List String))
    (target : String) (headers : List (String × String)) :
    Except PyErr (List Document) :=
  match fetchJson target headers with
  | Except.error e => Except.error e
  | Except.ok chunks =>
    Except.ok (chunks.map fun c =>
      { page_content := c, source := target, kindTag := "json" })

/-- The per-source dispatch inside IngestionEngine.run_pipeline: static_url
goes to the crawler strategy, dynamic_json to the JSON strategy, any other
kind leaves new_docs empty. -/
def processSource (fetchStatic : String → Except PyErr (Option String))
    (fetchJson : String → List (String × String) → Except PyErr (List String))
    (s : DataSource) : Except PyErr (List Document) :=
  match s.kind with
  | SourceType.static_url => processStaticUrl fetchStatic s.target
  | SourceType.dynamic_json => processDynamicJson fetchJson s.target s.headers
  | SourceType.local_file => Except.ok []

/-- The loop body of run_pipeline: a successful source extends all_docs, a
raising source is caught, logged and counted, and the loop continues. -/
def pipelineStep (fetchStatic : String → Except PyErr (Option String))
    (fetchJson : String → List (String × String) → Except PyErr (List String))
    (acc : List Document × Nat) (s : DataSource) : List Document × Nat :=
  match processSource fetchStatic fetchJson s with
  | Except.ok docs => (acc.1 ++ docs, acc.2)
  | Except.error _ => (acc.1, acc.2 + 1)

/-- The observable outcome of one IngestionEngine.run_pipeline call: the
argument of the single db.upsert_documents call if one was made, how many
sources were iterated, and how many of them failed (were caught and
logged). -/
structure PipelineResult where
  upsertCall : Option (List Document)
  sourcesAttempted : Nat
  sourcesFailed : Nat
deriving DecidableEq, Repr

/-- IngestionEngine.run_pipeline: load the configuration (here passed in);
with no usable configuration or no sources, return without touching anything;
otherwise iterate the sources in order with per-source failure isolation and
finally upsert the collected batch, or skip the upsert when the batch is
empty. -/
def runPipeline (fetchStatic : String → Except PyErr (Option String))
    (fetchJson : String → List (String × String) → Except PyErr (List String))
    (config : Option RuntimeConfig) : PipelineResult :=
  match config with
  | none => { upsertCall := none, sourcesAttempted := 0, sourcesFailed := 0 }
  | some cfg =>
    if cfg.sources.isEmpty then
      { upsertCall := none, sourcesAttempted := 0, sourcesFailed := 0 }
    else
      let r := cfg.sources.foldl (pipelineStep fetchStatic fetchJson) ([], 0)
      if r.1.isEmpty then
        { upsertCall := none, sourcesAttempted := cfg.sources.length,
          sourcesFailed := r.2 }
      else
        { upsertCall := some r.1, sourcesAttempted := cfg.sources.length,
          sourcesFailed := r.2 }

/-- The units a single source contributes to the batch: its documents when it
succeeds, nothing when it raises. -/
def sourceUnits (fetchStatic : String → Except PyErr (Option String))
    (fetchJson : String → List (String × String) → Except PyErr (List String))
    (s : DataSource) : List Document :=
  match processSource fetchStatic fetchJson s with
  | Except.ok docs => docs
  | Except.error _ => []

/-- Whether a source raises during fetch or transform. -/
def sourceFails (fetchStatic : String → Except PyErr (Option String))
    (fetchJson : String → List (String × String) → Except PyErr (List String))
    (s : DataSource) : Bool :=
  match processSource fetchStatic fetchJson s with
  | Except.ok _ => false
  | Except.error _ => true

/-- The units produced by the sources that succeed, in source order. -/
def successUnits (fetchStatic : String → Except PyErr (Option String))
    (fetchJson : String → List (String × String) → Except PyErr (List String))
    (sources : List DataSource) : List Document :=
  (sources.map (sourceUnits fetchStatic fetchJson)).flatten

/-- The number of sources that raise (each is caught and logged). -/
def failedCount (fetchStatic : String → Except PyErr (Option String))
    (fetchJson : String → List (String × String) → Except PyErr (List String))
    (sources : List DataSource) : Nat :=
  sources.countP (sourceFails fetchStatic fetchJson)

/-- The warm-up delay before the first run in background_ingestion_loop
(await asyncio.sleep(5)), in seconds. -/
def warmUpDelaySeconds : Nat := 5

/-- The start times, in simulated seconds, of the ingestion runs performed by
background_ingestion_loop in chatvat/bot_template/src/main.py: run 0 starts
after the warm-up delay; with a positive refresh interval, run k+1 starts
after run k completes (dur k is its duration) plus interval*60 seconds of
sleep; with interval 0 the else branch is taken and no further run ever
starts.  none means the run never happens. -/
def runStart (intervalMinutes : Nat) (dur : Nat → Nat) : Nat → Option Nat
  | 0 => some warmUpDelaySeconds
  | k + 1 =>
    match runStart intervalMinutes dur k with
    | none => none
    | some t =>
      if 0 < intervalMinutes then some (t + dur k + 60 * intervalMinutes)
      else none

/-- interval_minutes = getattr(config, 'refresh_interval_minutes', 0) in
background_ingestion_loop: a missing configuration defaults to 0. -/
def refreshIntervalOf (config : Option RuntimeConfig) : Nat :=
  match config with
  | none => 0
  | some c => c.refresh_interval_minutes

/-- Whether background_ingestion_loop enters its while-True scheduling loop
(the if interval_minutes > 0 branch). -/
def autoUpdateEnabled (config : Option RuntimeConfig) : Bool :=
  decide (0 < refreshIntervalOf config)

/-- load_runtime_config from chatvat/bot_template/src/config_loader.py: a
missing file or a parse/validation failure yields None, an already parsed and
validated document is returned as is.  The process environment env is in
scope (os.environ) but the function never consults it: the _expand_env_vars
helper defined next to it is never called. -/
def loadRuntimeConfig (env : List (String × String))
    (file : Option (Except PyErr RuntimeConfig)) : Option RuntimeConfig :=
  match file with
  | none => none
  | some (Except.error _) => none
  | some (Except.ok c) => some c

/-- A word character of the regex pattern used by _expand_env_vars. -/
def isWordChar (c : Char) : Bool :=
  c.isAlphanum || c == '_'

/-- Split a character list into its longest word-character prefix and the
rest (the greedy match of the group inside the pattern). -/
def spanWord : List Char → List Char × List Char
  | [] => ([], [])
  | c :: cs =>
    if isWordChar c then
      let p := spanWord cs
      (c :: p.1, p.2)
    else ([], c :: cs)

/-- The left-to-right, non-overlapping regex substitution performed by
_expand_env_vars: at a dollar-brace opener followed by a non-empty word and a
closing brace, replace the whole occurrence by the environment value when the
variable is set and keep the literal text when it is missing; everywhere else
copy one character and continue.  fuel bounds the recursion and is
instantiated with the input length, which the recursion never exceeds. -/
def substEnvFuel (env : List (String × String)) :
    Nat → List Char → List Char
  | 0, l => l
  | _ + 1, [] => []
  | fuel + 1, c :: cs =>
    if c = '$' then
      match cs with
      | '{' :: rest =>
        let w := (spanWord rest).1
        match (spanWord rest).2 with
        | '}' :: tail =>
          if w.isEmpty then c :: substEnvFuel env fuel cs
          else
            match List.lookup (String.mk w) env with
            | some v => v.data ++ substEnvFuel env fuel tail
            | none => c :: '{' :: (w ++ ('}' :: substEnvFuel env fuel tail))
        | _ => c :: substEnvFuel env fuel cs
      | _ => c :: substEnvFuel env fuel cs
    else c :: substEnvFuel env fuel cs

/-- The string-level substitution of _expand_env_vars (applied by that
helper, via json.dumps and re.sub, to every string of the document). -/
def substEnvString (env : List (String × String)) (s : String) : String :=
  String.mk (substEnvFuel env s.data.length s.data)

/-- _expand_env_vars at the document level: the regex substitution applied to
the serialized document touches every string field of the configuration. -/
def expandConfigStrings (env : List (String × String)) (c : RuntimeConfig) :
    RuntimeConfig :=
  { bot_name := substEnvString env c.bot_name
    sources := c.sources.map fun s =>
      { kind := s.kind
        target := substEnvString env s.target
        headers := s.headers.map fun h =>
          (substEnvString env h.1, substEnvString env h.2) }
    system_prompt := c.system_prompt.map (substEnvString env)
    refresh_interval_minutes := c.refresh_interval_minutes }

/-- The hostnames blocked by RuntimeCrawler._is_safe_url. -/
def blockedHosts : List String := ["localhost", "127.0.0.1", "0.0.0.0", "::1"]

/-- RuntimeCrawler._is_safe_url: parse the URL (urlparse is external Python
code and is the parameter parseHostname; it may raise, and the hostname may
be absent); a raising parse, an absent or empty hostname, or a blocked
hostname make the URL unsafe. -/
def isSafeUrl (parseHostname : String → Except PyErr (Option String))
    (url : String) : Bool :=
  match parseHostname url with
  | Except.error _ => false
  | Except.ok none => false
  | Except.ok (some h) =>
    if h = "" then false
    else if h ∈ blockedHosts then false
    else true

/-- The observable outcome of one RuntimeCrawler.fetch_page call: the value
returned to the caller and whether the network crawl was attempted at all. -/
structure FetchAttempt where
  result : Option String
  networkAttempted : Bool
deriving DecidableEq, Repr

/-- RuntimeCrawler.fetch_page: an unsafe URL is skipped before any fetch;
otherwise the crawl (external, parameter crawl) runs, a raising crawl is
caught and turned into None. -/
def fetchPage (parseHostname : String → Except PyErr (Option String))
    (crawl : String → Except PyErr (Option String)) (url : String) :
    FetchAttempt :=
  if isSafeUrl parseHostname url then
    match crawl url with
    | Except.ok md => { result := md, networkAttempted := true }
    | Except.error _ => { result := none, networkAttempted := true }
  else { result := none, networkAttempted := false }

/-- Where a thread is relative to the with-self.write_lock block of
VectorManager.upsert_documents: not at the block, blocked at the lock
acquisition, or inside the block (holding the lock). -/
inductive ThreadPhase
  | idle
  | waiting
  | critical
deriving DecidableEq, Repr

/-- The process-wide state of the write lock discipline: the singleton
VectorManager holds one threading.Lock (write_lock); two threads (the
background ingestion worker and another caller) are tracked, named by Bool. -/
structure LockState where
  holder : Option Bool
  phase : Bool → ThreadPhase

/-- Point update of one thread's phase. -/
def updPhase (f : Bool → ThreadPhase) (t : Bool) (p : ThreadPhase) :
    Bool → ThreadPhase :=
  fun u => if u = t then p else f u

/-- The initial state: the lock is free and nobody is at the block. -/
def lockInit : LockState :=
  { holder := none, phase := fun _ => ThreadPhase.idle }

/-- Modelled from the spec: the mutual-exclusion semantics of Python's
threading.Lock (external library) driving the with-self.write_lock block of
upsert_documents.  A thread reaches the block (request), acquires the lock
only when it is free (acquire, the blocking point), and releases it when the
block ends (release). -/
inductive WriteStep : LockState → LockState → Prop
  | request (s : LockState) (t : Bool)
      (hph : s.phase t = ThreadPhase.idle) :
      WriteStep s { holder := s.holder,
                    phase := updPhase s.phase t ThreadPhase.waiting }
  | acquire (s : LockState) (t : Bool)
      (hph : s.phase t = ThreadPhase.waiting) (hfree : s.holder = none) :
      WriteStep s { holder := some t,
                    phase := updPhase s.phase t ThreadPhase.critical }
  | release (s : LockState) (t : Bool)
      (hph : s.phase t = ThreadPhase.critical) (hown : s.holder = some t) :
      WriteStep s { holder := none,
                    phase := updPhase s.phase t ThreadPhase.idle }

/-- The states the lock discipline can reach from the initial state. -/
def ReachableLock (s : LockState) : Prop :=
  Relation.ReflTransGen WriteStep lockInit s

/-- The lock invariant: a thread is inside the with-block exactly when it
holds write_lock. -/
def LockInv (s : LockState) : Prop :=
  ∀ t, s.phase t = ThreadPhase.critical ↔ s.holder = some t

/-- Source behaviour for concrete evaluations: the crawler strategy always
raises (a failing source), the JSON strategy always yields three text
chunks. -/
def fS0 : String → Except PyErr (Option String) :=
  fun _ => Except.error { msg := "network down" }

def fJ0 : String → List (String × String) → Except PyErr (List String) :=
  fun _ _ => Except.ok ["a: 1", "b: 2", "c: 3"]

/-- A configuration with a failing source followed by a succeeding one. -/
def cfgW : RuntimeConfig :=
  { bot_name := "bot"
    sources :=
      [ { kind := SourceType.static_url, target := "https://s1.example" },
        { kind := SourceType.dynamic_json, target := "https://s2.example/api" } ] }

/-- A configuration whose only source fails under fS0. -/
def cfgFailOnly : RuntimeConfig :=
  { bot_name := "bot"
    sources := [{ kind := SourceType.static_url, target := "https://s1.example" }] }

/-- A concrete run-duration assignment for scheduler evaluations. -/
def durW : Nat → Nat := fun _ => 7

/-- A concrete stand-in for the per-process Python string hash, injective on
the concrete texts used below. -/
def hashLen : String → Int := fun s => (s.length : Int)

def docA : Document := { page_content := "a", source := "s1", kindTag := "url" }

def docB : Document := { page_content := "bb", source := "s1", kindTag := "url" }

def docC : Document := { page_content := "ccc", source := "s2", kindTag := "json" }

def exDocument : Document :=
  { page_content := "hello", source := "https://x.example", kindTag := "url" }

def exStoreError : StoreError := { msg := "db down" }

/-- An environment that sets BOT_NAME, and a parsed configuration document
whose bot_name field is the corresponding placeholder. -/
def envBug : List (String × String) := [("BOT_NAME", "chatty")]

def docBug : RuntimeConfig := { bot_name := "${BOT_NAME}", sources := [] }

/-- A parse oracle that resolves every URL to the hostname localhost, and a
crawl oracle that would return a page. -/
def parseLocalhost : String → Except PyErr (Option String) :=
  fun _ => Except.ok (some "localhost")

def crawlStub : String → Except PyErr (Option String) :=
  fun _ => Except.ok (some "# page")

/-- A concrete state: thread false holds the lock inside the critical
section while thread true is blocked at the lock. -/
def lockS1 : LockState :=
  { holder := some false
    phase := fun t =>
      if t = false then ThreadPhase.critical else ThreadPhase.waiting }

theorem lookup_isSome_iff (k : String) (m : List (String × Document)) :
    (List.lookup k m).isSome = true ↔ k ∈ m.map Prod.fst := by
  induction m with
  | nil => simp
  | cons p m ih =>
    cases p with
    | mk a b =>
      rw [List.map_cons, List.mem_cons]
      by_cases h : k = a
      · subst h
        simp [List.lookup]
      · have hba : (k == a) = false := beq_eq_false_iff_ne.mpr h
        simp [List.lookup, hba, h, ih]

theorem lookup_append_isSome (k : String) (m m2 : List (String × Document)) :
    (List.lookup k (m ++ m2)).isSome = true
      ↔ (List.lookup k m).isSome = true ∨ (List.lookup k m2).isSome = true := by
  rw [lookup_isSome_iff, List.map_append, List.mem_append,
    ← lookup_isSome_iff, ← lookup_isSome_iff]

theorem foldl_uniqueStep_spec (pyHash : String → Int) :
    ∀ (docs : List Document) (m : List (String × Document)) (seen : List String),
      (∀ x : String, x ∈ seen ↔ (List.lookup x m).isSome = true) →
      (docs.foldl (uniqueStep pyHash) m).map Prod.snd
        = m.map Prod.snd ++ keepFirsts pyHash seen docs := by
  intro docs
  induction docs with
  | nil =>
    intro m seen h
    simp [keepFirsts]
  | cons d rest ih =>
    intro m seen h
    rw [List.foldl_cons]
    by_cases hk : docId pyHash d.page_content ∈ seen
    · have hlk : (List.lookup (docId pyHash d.page_content) m).isSome = true :=
        (h _).mp hk
      have hstep : uniqueStep pyHash m d = m := by
        unfold uniqueStep
        rw [if_pos hlk]
      rw [hstep, ih m seen h]
      simp only [keepFirsts]
      rw [if_pos hk]
    · have hlk : ¬ ((List.lookup (docId pyHash d.page_content) m).isSome = true) :=
        fun hc => hk ((h _).mpr hc)
      have hstep : uniqueStep pyHash m d
          = m ++ [(docId pyHash d.page_content, d)] := by
        unfold uniqueStep
        rw [if_neg hlk]
      have hinv : ∀ x : String,
          x ∈ (docId pyHash d.page_content) :: seen
            ↔ (List.lookup x (m ++ [(docId pyHash d.page_content, d)])).isSome
                = true := by
        intro x
        rw [List.mem_cons, lookup_append_isSome, ← h x]
        have hone : (List.lookup x [(docId pyHash d.page_content, d)]).isSome = true
            ↔ x = docId pyHash d.page_content := by
          by_cases hx : x = docId pyHash d.page_content
          · subst hx
            simp [List.lookup]
          · have hxb : (x == docId pyHash d.page_content) = false :=
              beq_eq_false_iff_ne.mpr hx
            simp [List.lookup, hxb, hx]
        rw [hone]
        exact or_comm
      rw [hstep, ih _ _ hinv]
      simp only [keepFirsts]
      rw [if_neg hk]
      simp

theorem cleanDocuments_eq_keepFirsts (pyHash : String → Int)
    (docs : List Document) :
    cleanDocuments pyHash docs = keepFirsts pyHash [] docs := by
  unfold cleanDocuments uniqueMap
  have h := foldl_uniqueStep_spec pyHash docs [] [] (by simp)
  simpa using h

theorem keepFirsts_sublist (pyHash : String → Int) :
    ∀ (docs : List Document) (seen : List String),
      List.Sublist (keepFirsts pyHash seen docs) docs := by
  intro docs
  induction docs with
  | nil =>
    intro seen
    simp [keepFirsts]
  | cons d rest ih =>
    intro seen
    unfold keepFirsts
    by_cases hk : docId pyHash d.page_content ∈ seen
    · rw [if_pos hk]
      exact (ih seen).cons d
    · rw [if_neg hk]
      exact (ih _).cons₂ d

theorem foldl_uniqueStep_length_le (pyHash : String → Int) :
    ∀ (docs : List Document) (m : List (String × Document)),
      m.length ≤ (docs.foldl (uniqueStep pyHash) m).length := by
  intro docs
  induction docs with
  | nil => intro m; simp
  | cons d rest ih =>
    intro m
    rw [List.foldl_cons]
    refine le_trans ?_ (ih (uniqueStep pyHash m d))
    show m.length ≤
      (if (List.lookup (docId pyHash d.page_content) m).isSome = true then m
       else m ++ [(docId pyHash d.page_content, d)]).length
    by_cases hc : (List.lookup (docId pyHash d.page_content) m).isSome = true
    · rw [if_pos hc]
    · rw [if_neg hc]
      simp

theorem uniqueMap_ne_nil (pyHash : String → Int) (d : Document)
    (docs : List Document) :
    uniqueMap pyHash (d :: docs) ≠ [] := by
  intro hnil
  unfold uniqueMap at hnil
  rw [List.foldl_cons] at hnil
  have h1 : uniqueStep pyHash [] d = [(docId pyHash d.page_content, d)] := by
    unfold uniqueStep
    simp
  have h2 := foldl_uniqueStep_length_le pyHash docs (uniqueStep pyHash [] d)
  rw [hnil, h1] at h2
  simp at h2

theorem foldl_pipelineStep_spec
    (fS : String → Except PyErr (Option String))
    (fJ : String → List (String × String) → Except PyErr (List String)) :
    ∀ (l : List DataSource) (acc : List Document) (n : Nat),
      l.foldl (pipelineStep fS fJ) (acc, n)
        = (acc ++ successUnits fS fJ l, n + failedCount fS fJ l) := by
  intro l
  induction l with
  | nil =>
    intro acc n
    simp [successUnits, failedCount]
  | cons s rest ih =>
    intro acc n
    rw [List.foldl_cons]
    cases hps : processSource fS fJ s with
    | ok docs =>
      have hstep : pipelineStep fS fJ (acc, n) s = (acc ++ docs, n) := by
        unfold pipelineStep
        rw [hps]
      rw [hstep, ih]
      simp [successUnits, failedCount, sourceUnits, sourceFails, hps,
        List.countP_cons, List.append_assoc]
    | error e =>
      have hstep : pipelineStep fS fJ (acc, n) s = (acc, n + 1) := by
        unfold pipelineStep
        rw [hps]
      rw [hstep, ih]
      simp [successUnits, failedCount, sourceUnits, sourceFails, hps,
        List.countP_cons]
      omega

theorem runStart_isSome_of_pos (i : Nat) (dur : Nat → Nat) (hi : 0 < i) :
    ∀ k, (runStart i dur k).isSome = true := by
  intro k
  induction k with
  | zero => rfl
  | succ k ih =>
    cases hk : runStart i dur k with
    | none =>
      rw [hk] at ih
      simp at ih
    | some t =>
      simp only [runStart]
      rw [hk]
      simp [hi]

theorem lockInv_init : LockInv lockInit := by
  intro t
  simp [lockInit]

theorem lockInv_step {s s2 : LockState} (h : WriteStep s s2)
    (hinv : LockInv s) : LockInv s2 := by
  cases h with
  | request t hph =>
    intro u
    by_cases hu : u = t
    · subst hu
      have hnh : s.holder ≠ some u := by
        intro hc
        have h2 := (hinv u).mpr hc
        rw [hph] at h2
        exact ThreadPhase.noConfusion h2
      simp [updPhase, hnh]
    · simp only [updPhase]
      rw [if_neg hu]
      exact hinv u
  | acquire t hph hfree =>
    intro u
    by_cases hu : u = t
    · subst hu
      simp [updPhase]
    · simp only [updPhase]
      rw [if_neg hu]
      constructor
      · intro hc
        have h2 := (hinv u).mp hc
        rw [hfree] at h2
        exact Option.noConfusion h2
      · intro hc
        exact absurd (Option.some.inj hc).symm hu
  | release t hph hown =>
    intro u
    by_cases hu : u = t
    · subst hu
      simp [updPhase]
    · simp only [updPhase]
      rw [if_neg hu]
      constructor
      · intro hc
        have h2 := (hinv u).mp hc
        rw [hown] at h2
        exact absurd (Option.some.inj h2).symm hu
      · intro hc
        exact Option.noConfusion hc

theorem reachable_lockInv {s : LockState} (h : ReachableLock s) : LockInv s := by
  unfold ReachableLock at h
  induction h with
  | refl => exact lockInv_init
  | tail hsteps hstep ih => exact lockInv_step hstep ih

/-- Claim C1: for every sequence of configured sources, a source whose fetch
or transform raises is caught and counted, the run continues with the
remaining sources in order, and the single final upsert call receives exactly
the units produced by the sources that succeeded (in source order); one
failing source never prevents the units of succeeding sources from being
ingested. -/
theorem run_pipeline_isolates_source_failures
    (fS : String → Except PyErr (Option String))
    (fJ : String → List (String × String) → Except PyErr (List String))
    (cfg : RuntimeConfig)
    (hne : successUnits fS fJ cfg.sources ≠ []) :
    runPipeline fS fJ (some cfg)
      = { upsertCall := some (successUnits fS fJ cfg.sources),
          sourcesAttempted := cfg.sources.length,
          sourcesFailed := failedCount fS fJ cfg.sources } := by
  have hsrc : cfg.sources.isEmpty = false := by
    cases hs : cfg.sources with
    | nil =>
      exfalso
      apply hne
      rw [hs]
      simp [successUnits]
    | cons a l => rfl
  have hfold := foldl_pipelineStep_spec fS fJ cfg.sources [] 0
  simp only [List.nil_append, Nat.zero_add] at hfold
  have hsu : (successUnits fS fJ cfg.sources).isEmpty = false := by
    cases hs : successUnits fS fJ cfg.sources with
    | nil => exact absurd hs hne
    | cons a l => rfl
  simp [runPipeline, hsrc, hfold, hsu]

theorem run_pipeline_isolates_source_failures_witness :
    successUnits fS0 fJ0 cfgW.sources ≠ []
    ∧ runPipeline fS0 fJ0 (some cfgW)
        = { upsertCall := some (successUnits fS0 fJ0 cfgW.sources),
            sourcesAttempted := cfgW.sources.length,
            sourcesFailed := failedCount fS0 fJ0 cfgW.sources }
    ∧ (successUnits fS0 fJ0 cfgW.sources).length = 3
    ∧ failedCount fS0 fJ0 cfgW.sources = 1 :=
  ⟨by decide, run_pipeline_isolates_source_failures fS0 fJ0 cfgW (by decide),
   by decide, by decide⟩

/-- Claim C9: when every source fails or yields no units (the run's batch is
empty), the run makes no upsert call at all, and independently the store
wrapper's empty-batch guard returns with the store untouched, nothing logged
as an error and the external store never invoked. -/
theorem empty_batch_noop
    (fS : String → Except PyErr (Option String))
    (fJ : String → List (String × String) → Except PyErr (List String))
    (cfg : RuntimeConfig)
    (h : successUnits fS fJ cfg.sources = []) :
    (runPipeline fS fJ (some cfg)).upsertCall = none
    ∧ ∀ (pyHash : String → Int) (addOutcome : Option StoreError) (s : Store),
        upsertDocuments pyHash addOutcome s []
          = { store := s, raised := none, errorLogged := false,
              duplicatesDropped := 0, storeCalled := false } := by
  constructor
  · have hfold := foldl_pipelineStep_spec fS fJ cfg.sources [] 0
    simp only [List.nil_append, Nat.zero_add] at hfold
    by_cases hsrc : cfg.sources.isEmpty
    · simp [runPipeline, hsrc]
    · simp [runPipeline, hsrc, hfold, h]
  · intro pyHash addOutcome s
    rfl

theorem empty_batch_noop_witness :
    successUnits fS0 fJ0 cfgFailOnly.sources = []
    ∧ (runPipeline fS0 fJ0 (some cfgFailOnly)).upsertCall = none :=
  ⟨by decide, (empty_batch_noop fS0 fJ0 cfgFailOnly (by decide)).1⟩

/-- Claim C6: with no usable configuration (missing file or parse failure,
both of which make load_runtime_config yield none), the pipeline performs no
source processing and no upsert, and the scheduling loop of
background_ingestion_loop is never entered (the interval defaults to 0), so
no ingestion runs and no scheduling proceed. -/
theorem missing_config_fatal
    (fS : String → Except PyErr (Option String))
    (fJ : String → List (String × String) → Except PyErr (List String))
    (env : List (String × String)) (e : PyErr) :
    loadRuntimeConfig env none = none
    ∧ loadRuntimeConfig env (some (Except.error e)) = none
    ∧ runPipeline fS fJ none
        = { upsertCall := none, sourcesAttempted := 0, sourcesFailed := 0 }
    ∧ autoUpdateEnabled none = false :=
  ⟨rfl, rfl, rfl, rfl⟩

/-- Claim C7: with refresh interval 0 the scheduler performs exactly the one
startup run (at the warm-up delay) and no further runs; with a positive
interval every run happens, and each subsequent run starts exactly the full
configured interval (in seconds) after the previous run completed. -/
theorem refresh_schedule (dur : Nat → Nat) (i k t : Nat) :
    runStart 0 dur 0 = some warmUpDelaySeconds
    ∧ runStart 0 dur (k + 1) = none
    ∧ (0 < i → (runStart i dur k).isSome = true)
    ∧ (0 < i → runStart i dur k = some t →
        runStart i dur (k + 1) = some (t + dur k + 60 * i)) := by
  refine ⟨rfl, ?_, fun hi => runStart_isSome_of_pos i dur hi k, fun hi ht => ?_⟩
  · cases hk : runStart 0 dur k with
    | none =>
      simp only [runStart]
      rw [hk]
    | some t2 =>
      simp only [runStart]
      rw [hk]
      simp
  · simp only [runStart]
    rw [ht]
    simp [hi]

theorem refresh_schedule_witness :
    runStart 0 durW 0 = some warmUpDelaySeconds
    ∧ runStart 0 durW 1 = none
    ∧ 0 < 5
    ∧ (runStart 5 durW 0).isSome = true
    ∧ runStart 5 durW 0 = some 5
    ∧ runStart 5 durW 1 = some (5 + 7 + 60 * 5) :=
  ⟨(refresh_schedule durW 5 0 5).1, (refresh_schedule durW 5 0 5).2.1,
   by decide, (refresh_schedule durW 5 0 5).2.2.1 (by decide), rfl,
   (refresh_schedule durW 5 0 5).2.2.2 (by decide) rfl⟩

/-- Claim C2: the fingerprint (doc_id) is a function of the page content
alone — two units with the same text get the same id whatever their
provenance — and the store upsert is keyed by it, so ingesting the same text
in two separate runs leaves exactly one stored entry, the second run
overwriting the first rather than duplicating it. -/
theorem ingest_same_text_twice_one_entry (pyHash : String → Int)
    (content s1 t1 s2 t2 : String) :
    docId pyHash (Document.mk content s1 t1).page_content
      = docId pyHash (Document.mk content s2 t2).page_content
    ∧ (upsertDocuments pyHash none
        (upsertDocuments pyHash none [] [Document.mk content s1 t1]).store
        [Document.mk content s2 t2]).store
      = [(docId pyHash content, Document.mk content s2 t2)] := by
  constructor
  · rfl
  · have h1 : (upsertDocuments pyHash none [] [Document.mk content s1 t1]).store
        = [(docId pyHash content, Document.mk content s1 t1)] := by
      simp [upsertDocuments, uniqueMap, uniqueStep, storeUpsert, storePut,
        List.lookup]
    rw [h1]
    simp [upsertDocuments, uniqueMap, uniqueStep, storeUpsert, storePut,
      List.lookup]

/-- Claim C3: deduplication within a batch is the order-preserving
first-occurrence-of-each-fingerprint subsequence of the input (hence
deterministic: cleanDocuments is a function of the input batch), and on a
batch [A, B, A, C] with A repeated and the three fingerprints otherwise
distinct it returns [A, B, C], dropping and counting exactly one
duplicate. -/
theorem dedup_keeps_first_occurrences
    (pyHash : String → Int) (docs : List Document) (A B C : Document)
    (hAB : docId pyHash A.page_content ≠ docId pyHash B.page_content)
    (hAC : docId pyHash A.page_content ≠ docId pyHash C.page_content)
    (hBC : docId pyHash B.page_content ≠ docId pyHash C.page_content) :
    cleanDocuments pyHash docs = keepFirsts pyHash [] docs
    ∧ List.Sublist (cleanDocuments pyHash docs) docs
    ∧ cleanDocuments pyHash [A, B, A, C] = [A, B, C]
    ∧ ([A, B, A, C] : List Document).length
        - (cleanDocuments pyHash [A, B, A, C]).length = 1 := by
  have hex : cleanDocuments pyHash [A, B, A, C] = [A, B, C] := by
    have hBA : (docId pyHash B.page_content == docId pyHash A.page_content)
        = false := beq_eq_false_iff_ne.mpr (Ne.symm hAB)
    have hCA : (docId pyHash C.page_content == docId pyHash A.page_content)
        = false := beq_eq_false_iff_ne.mpr (Ne.symm hAC)
    have hCB : (docId pyHash C.page_content == docId pyHash B.page_content)
        = false := beq_eq_false_iff_ne.mpr (Ne.symm hBC)
    simp [cleanDocuments, uniqueMap, uniqueStep, List.lookup, hBA, hCA, hCB]
  refine ⟨cleanDocuments_eq_keepFirsts pyHash docs, ?_, hex, ?_⟩
  · rw [cleanDocuments_eq_keepFirsts pyHash docs]
    exact keepFirsts_sublist pyHash docs []
  · rw [hex]
    rfl

theorem dedup_keeps_first_occurrences_witness :
    docId hashLen docA.page_content ≠ docId hashLen docB.page_content
    ∧ docId hashLen docA.page_content ≠ docId hashLen docC.page_content
    ∧ docId hashLen docB.page_content ≠ docId hashLen docC.page_content
    ∧ cleanDocuments hashLen [docA, docB, docA, docC] = [docA, docB, docC]
    ∧ ([docA, docB, docA, docC] : List Document).length
        - (cleanDocuments hashLen [docA, docB, docA, docC]).length = 1 :=
  ⟨by decide, by decide, by decide,
   (dedup_keeps_first_occurrences hashLen [docA, docB, docA, docC]
      docA docB docC (by decide) (by decide) (by decide)).2.2.1,
   (dedup_keeps_first_occurrences hashLen [docA, docB, docA, docC]
      docA docB docC (by decide) (by decide) (by decide)).2.2.2⟩

/-- Claim C8 counterexample: with a non-empty batch and an external store
call that raises, upsert_documents catches the exception, leaves the store
unchanged, and returns to its caller exactly as a successful call does (no
exception propagates and no error value is returned): the claim that a
failing upsert reports a StoreError to the caller and never returns success
silently is false of the code. -/
theorem upsert_store_failure_is_silent :
    ([exDocument] : List Document) ≠ []
    ∧ (upsertDocuments hashLen (some exStoreError) [] [exDocument]).store = []
    ∧ (upsertDocuments hashLen (some exStoreError) [] [exDocument]).raised
        = none
    ∧ (upsertDocuments hashLen none [] [exDocument]).raised = none := by
  decide

/-- Claim C8 as amended: upsert_documents never raises to its caller; when
the external store call succeeds the whole deduplicated batch is written in
that one call, and when it raises the store is left unchanged (the external
atomicity is trusted) and the failure is only logged — the caller cannot
distinguish a failed upsert from a successful one. -/
theorem upsert_never_raises_all_or_nothing (pyHash : String → Int)
    (addOutcome : Option StoreError) (s : Store) (docs : List Document) :
    (upsertDocuments pyHash addOutcome s docs).raised = none
    ∧ (upsertDocuments pyHash addOutcome s docs).store
        = (match addOutcome with
           | none => storeUpsert s (uniqueMap pyHash docs)
           | some _ => s)
    ∧ (upsertDocuments pyHash addOutcome s docs).errorLogged
        = (addOutcome.isSome && !docs.isEmpty) := by
  cases docs with
  | nil =>
    cases addOutcome <;> simp [upsertDocuments, uniqueMap, storeUpsert]
  | cons d rest =>
    have hne : uniqueMap pyHash (d :: rest) ≠ [] := uniqueMap_ne_nil pyHash d rest
    have hclean : ((uniqueMap pyHash (d :: rest)).map Prod.snd).isEmpty
        = false := by
      cases hu : uniqueMap pyHash (d :: rest) with
      | nil => exact absurd hu hne
      | cons p l => rfl
    cases addOutcome <;> simp [upsertDocuments, hclean]

/-- Claim C5 evaluated at the failing input: with BOT_NAME set in the
environment and a configuration document containing the placeholder, the
loader returns the document verbatim — the placeholder survives even though
the variable is set, because load_runtime_config never invokes the
_expand_env_vars helper defined beside it.  Had the helper been applied (as
its docstring and the spec intend), the value would have been substituted,
and a variable missing from the environment would have kept the literal
placeholder. -/
theorem envvar_substitution_skipped_on_load :
    loadRuntimeConfig envBug (some (Except.ok docBug)) = some docBug
    ∧ docBug.bot_name = "${BOT_NAME}"
    ∧ (expandConfigStrings envBug docBug).bot_name = "chatty"
    ∧ substEnvString [] "${BOT_NAME}" = "${BOT_NAME}"
    ∧ "${BOT_NAME}" ≠ "chatty" := by
  decide

/-- Claim C10: a URL whose parse raises, whose hostname is absent, or whose
hostname is one of the blocked internal hosts is rejected by _is_safe_url,
and fetch_page returns None for it without ever invoking the network
crawl. -/
theorem fetch_page_blocks_unsafe
    (parseHostname : String → Except PyErr (Option String))
    (crawl : String → Except PyErr (Option String)) (url : String)
    (h : (∃ e, parseHostname url = Except.error e)
        ∨ parseHostname url = Except.ok none
        ∨ ∃ host, parseHostname url = Except.ok (some host)
            ∧ host ∈ blockedHosts) :
    fetchPage parseHostname crawl url
      = { result := none, networkAttempted := false } := by
  have hsafe : isSafeUrl parseHostname url = false := by
    unfold isSafeUrl
    rcases h with ⟨e, he⟩ | he | ⟨host, he, hmem⟩
    · rw [he]
    · rw [he]
    · rw [he]
      by_cases hempty : host = ""
      · simp [hempty]
      · simp [hempty, hmem]
  unfold fetchPage
  rw [hsafe]
  simp

theorem fetch_page_blocks_unsafe_witness :
    ("localhost" ∈ blockedHosts)
    ∧ fetchPage parseLocalhost crawlStub "http://localhost:8000/"
        = { result := none, networkAttempted := false } :=
  ⟨by decide,
   fetch_page_blocks_unsafe parseLocalhost crawlStub "http://localhost:8000/"
     (Or.inr (Or.inr ⟨"localhost", rfl, by decide⟩))⟩

/-- Claim C4: under the write_lock discipline of upsert_documents, in every
reachable state at most one thread is inside the upsert critical section
(two concurrent runs never interleave their upsert calls), and while one
thread holds the lock, a single step can never move a thread blocked at the
lock into the critical section — it stays blocked until the holder
releases. -/
theorem write_lock_single_writer :
    (∀ s : LockState, ReachableLock s →
      ¬ (s.phase true = ThreadPhase.critical
          ∧ s.phase false = ThreadPhase.critical))
    ∧ (∀ (s s2 : LockState) (t u : Bool), WriteStep s s2 → s.holder = some t →
        u ≠ t → s.phase u = ThreadPhase.waiting →
        s2.phase u ≠ ThreadPhase.critical) := by
  constructor
  · intro s hr hc
    have hinv := reachable_lockInv hr
    have e1 : s.holder = some true := (hinv true).mp hc.1
    have e2 : s.holder = some false := (hinv false).mp hc.2
    rw [e1] at e2
    exact Bool.noConfusion (Option.some.inj e2)
  · intro s s2 t u hstep hhold hne hwait
    cases hstep with
    | request t2 hph =>
      by_cases hu2 : u = t2
      · subst hu2
        simp [updPhase]
      · simp only [updPhase]
        rw [if_neg hu2, hwait]
        simp
    | acquire t2 hph hfree =>
      rw [hhold] at hfree
      exact Option.noConfusion hfree
    | release t2 hph hown =>
      rw [hhold] at hown
      have ht2 : t = t2 := Option.some.inj hown
      by_cases hu2 : u = t2
      · exact absurd (hu2.trans ht2.symm) hne
      · simp only [updPhase]
        rw [if_neg hu2, hwait]
        simp

theorem write_lock_single_writer_witness :
    ¬ (lockInit.phase true = ThreadPhase.critical
        ∧ lockInit.phase false = ThreadPhase.critical)
    ∧ (updPhase lockS1.phase false ThreadPhase.idle) true
        ≠ ThreadPhase.critical :=
  ⟨write_lock_single_writer.1 lockInit Relation.ReflTransGen.refl,
   write_lock_single_writer.2 lockS1
     { holder := none, phase := updPhase lockS1.phase false ThreadPhase.idle }
     false true
     (WriteStep.release lockS1 false rfl rfl)
     rfl (by decide) rfl⟩

end ChatVat
